import Mathlib

/-!
Verification development for the Batch-Image-Resizer repository.

The geometry and state logic of the crop engine (`CropEngine`), the
re-framing algorithm of the batch processor (`BatchProcessor.generateImage`),
the preset store (`PresetManager`) and the export entry point
(`UIController.handleDownload`) are embedded shallowly below.  All numeric
quantities (JavaScript `number`s) are modelled as rationals `ℚ`, so every
statement is about the exact arithmetic the source expressions denote.
-/

namespace BatchResizer

/-- a decoded source image: `img.width` / `img.height` of `HTMLImageElement`. -/
structure Image where
  width : ℚ
  height : ℚ
deriving DecidableEq

/-- the crop rectangle of `types.ts` (`CropRect`), in image space. -/
structure CropRect where
  x : ℚ
  y : ℚ
  width : ℚ
  height : ℚ
deriving DecidableEq

/-- the canvas the engine draws on; only its pixel dimensions matter. -/
structure Canvas where
  width : ℚ
  height : ℚ
deriving DecidableEq

/-- the viewport state of `CropEngine`: `this.view = \x7b zoom, panX, panY \x7d`. -/
@[ext]
structure View where
  zoom : ℚ
  panX : ℚ
  panY : ℚ
deriving DecidableEq

/-- a point, used both for canvas-pixel coordinates and image coordinates. -/
@[ext]
structure Point where
  x : ℚ
  y : ℚ
deriving DecidableEq

/-- `CropEngine.getBaseScale`: fits the image in the canvas minus a 40px
margin; falls back to `1` on a degenerate viewport. -/
def getBaseScale (canvas : Canvas) (image : Image) : ℚ :=
  let margin : ℚ := 40
  let w := canvas.width - margin * 2
  let h := canvas.height - margin * 2
  if w ≤ 0 ∨ h ≤ 0 then 1
  else min (w / image.width) (h / image.height)

/-- `CropEngine.imageToCanvas` (image space → canvas pixel space), in the
state where an image is loaded. -/
def imageToCanvas (canvas : Canvas) (image : Image) (view : View) (p : Point) : Point :=
  let totalScale := getBaseScale canvas image * view.zoom
  let cx := canvas.width / 2
  let cy := canvas.height / 2
  let imgCx := image.width / 2
  let imgCy := image.height / 2
  { x := cx + view.panX + (p.x - imgCx) * totalScale
    y := cy + view.panY + (p.y - imgCy) * totalScale }

/-- `CropEngine.canvasToImage` (canvas pixel space → image space), in the
state where an image is loaded. -/
def canvasToImage (canvas : Canvas) (image : Image) (view : View) (p : Point) : Point :=
  let totalScale := getBaseScale canvas image * view.zoom
  let cx := canvas.width / 2
  let cy := canvas.height / 2
  let imgCx := image.width / 2
  let imgCy := image.height / 2
  { x := imgCx + (p.x - cx - view.panX) / totalScale
    y := imgCy + (p.y - cy - view.panY) / totalScale }

/-- the `zoomIntensity` constant of `CropEngine.handleWheel`. -/
def zoomIntensity : ℚ := 1/10

/-- `CropEngine.handleWheel`, in the state where an image is loaded: clamps
the multiplicative zoom step to `[0.1, 10]` and recomputes the pan so the
image point under the mouse stays under the mouse. -/
def handleWheel (canvas : Canvas) (image : Image) (view : View)
    (deltaY : ℚ) (mouse : Point) : View :=
  let delta := if deltaY > 0 then -zoomIntensity else zoomIntensity
  let newZoom := max (1/10) (min 10 (view.zoom * (1 + delta)))
  let imgPosBefore := canvasToImage canvas image view mouse
  let totalScale := getBaseScale canvas image * newZoom
  let cx := canvas.width / 2
  let cy := canvas.height / 2
  let imgCx := image.width / 2
  let imgCy := image.height / 2
  { zoom := newZoom
    panX := mouse.x - cx - (imgPosBefore.x - imgCx) * totalScale
    panY := mouse.y - cy - (imgPosBefore.y - imgCy) * totalScale }

/-- the drag mode of `CropEngine` (`this.dragMode`), excluding `null`. -/
inductive DragMode where
  | move
  | resizeTL
  | resizeTR
  | resizeBL
  | resizeBR
  | pan
deriving DecidableEq

/-- the mutable state touched by `CropEngine.handleMouseMove`. -/
structure MoveState where
  view : View
  cropRect : CropRect
  dragStart : Point
deriving DecidableEq

/-- `CropEngine.handleMouseMove`, in the state where a drag is active, an
image is loaded and a crop rectangle exists.  `mouse` is the canvas-space
pointer position (`getMouseCanvasPos` already applied). -/
def handleMouseMove (canvas : Canvas) (image : Image) (mode : DragMode)
    (st : MoveState) (mouse : Point) : MoveState :=
  match mode with
  | DragMode.pan =>
      let dx := mouse.x - st.dragStart.x
      let dy := mouse.y - st.dragStart.y
      { st with
          view := { st.view with panX := st.view.panX + dx, panY := st.view.panY + dy }
          dragStart := mouse }
  | DragMode.move =>
      let currentImg := canvasToImage canvas image st.view mouse
      let startImg := canvasToImage canvas image st.view st.dragStart
      let dx := currentImg.x - startImg.x
      let dy := currentImg.y - startImg.y
      let nx := max 0 (min (image.width - st.cropRect.width) (st.cropRect.x + dx))
      let ny := max 0 (min (image.height - st.cropRect.height) (st.cropRect.y + dy))
      { st with
          cropRect := { st.cropRect with x := nx, y := ny }
          dragStart := mouse }
  | DragMode.resizeBR =>
      let currentImg := canvasToImage canvas image st.view mouse
      let fixedX := st.cropRect.x
      let fixedY := st.cropRect.y
      { st with cropRect := { st.cropRect with
          width := max 10 (currentImg.x - fixedX)
          height := max 10 (currentImg.y - fixedY) } }
  | DragMode.resizeTL =>
      let currentImg := canvasToImage canvas image st.view mouse
      let fixedX := st.cropRect.x + st.cropRect.width
      let fixedY := st.cropRect.y + st.cropRect.height
      let newX := min (fixedX - 10) currentImg.x
      let newY := min (fixedY - 10) currentImg.y
      { st with cropRect :=
          { x := newX, y := newY, width := fixedX - newX, height := fixedY - newY } }
  | DragMode.resizeTR =>
      let currentImg := canvasToImage canvas image st.view mouse
      let fixedX := st.cropRect.x
      let fixedY := st.cropRect.y + st.cropRect.height
      let newY := min (fixedY - 10) currentImg.y
      { st with cropRect := { st.cropRect with
          width := max 10 (currentImg.x - fixedX)
          height := fixedY - newY
          y := newY } }
  | DragMode.resizeBL =>
      let currentImg := canvasToImage canvas image st.view mouse
      let fixedX := st.cropRect.x + st.cropRect.width
      let fixedY := st.cropRect.y
      let newX := min (fixedX - 10) currentImg.x
      { st with cropRect := { st.cropRect with
          x := newX
          width := fixedX - newX
          height := max 10 (currentImg.y - fixedY) } }

/-- the §3 invariants of a crop rectangle: inside the image, at least
`MIN_SIZE = 10` units in each dimension. -/
def cropInvariant (image : Image) (c : CropRect) : Prop :=
  0 ≤ c.x ∧ 0 ≤ c.y ∧ c.x + c.width ≤ image.width ∧
    c.y + c.height ≤ image.height ∧ 10 ≤ c.width ∧ 10 ≤ c.height

instance (image : Image) (c : CropRect) : Decidable (cropInvariant image c) := by
  unfold cropInvariant; infer_instance

/-- a source sub-rectangle computed by `BatchProcessor.generateImage`. -/
structure SourceRect where
  x : ℚ
  y : ℚ
  w : ℚ
  h : ℚ
deriving DecidableEq

/-- step 1 of the Smart Auto-Fit in `generateImage` (lines 53-64): expand
the user crop to the target aspect ratio, producing `(sourceW, sourceH)`. -/
def expandedSource (userCrop : CropRect) (targetRatio : ℚ) : ℚ × ℚ :=
  if targetRatio > userCrop.width / userCrop.height then
    (userCrop.height * targetRatio, userCrop.height)
  else
    (userCrop.width, userCrop.width / targetRatio)

/-- the first bound-shrink check of `generateImage` (lines 67-70). -/
def boundWidth (imageWidth targetRatio : ℚ) (s : ℚ × ℚ) : ℚ × ℚ :=
  if s.1 > imageWidth then (imageWidth, imageWidth / targetRatio) else s

/-- the second bound-shrink check of `generateImage` (lines 71-74). -/
def boundHeight (imageHeight targetRatio : ℚ) (s : ℚ × ℚ) : ℚ × ℚ :=
  if s.2 > imageHeight then (imageHeight * targetRatio, imageHeight) else s

/-- the per-axis clamp of `generateImage` (lines 81-84): push a coordinate
to `0` if negative, then pull it back if the rectangle overruns `extent`. -/
def shiftIntoBounds (extent size pos : ℚ) : ℚ :=
  if (if pos < 0 then 0 else pos) + size > extent then extent - size
  else if pos < 0 then 0 else pos

/-- the source-rectangle computation of `BatchProcessor.generateImage`
(lines 45-84), composed exactly as the source performs it. -/
def generateImageSourceRect (image : Image) (userCrop : CropRect)
    (presetW presetH : ℚ) : SourceRect :=
  let cx := userCrop.x + userCrop.width / 2
  let cy := userCrop.y + userCrop.height / 2
  let targetRatio := presetW / presetH
  let s := boundHeight image.height targetRatio
    (boundWidth image.width targetRatio (expandedSource userCrop targetRatio))
  ⟨shiftIntoBounds image.width s.1 (cx - s.1 / 2),
    shiftIntoBounds image.height s.2 (cy - s.2 / 2),
    s.1, s.2⟩

/-- a size preset of `types.ts` (`SizePreset`); widths and heights are the
integer pixel sizes the UI stores. -/
structure SizePreset where
  id : String
  width : ℕ
  height : ℕ
  label : String
  lockAspectRatio : Bool
deriving DecidableEq

/-- a partial update as passed to `PresetManager.updatePreset`
(`Partial<SizePreset>`): each field is either given or absent. -/
structure PresetUpdate where
  id : Option String := none
  width : Option ℕ := none
  height : Option ℕ := none
  label : Option String := none
  lockAspectRatio : Option Bool := none
deriving DecidableEq

/-- the JavaScript spread merge `\x7b ...p, ...updates \x7d`: a given field
overrides, an absent field keeps the preset's value. -/
def mergePreset (p : SizePreset) (u : PresetUpdate) : SizePreset :=
  { id := u.id.getD p.id
    width := u.width.getD p.width
    height := u.height.getD p.height
    label := u.label.getD p.label
    lockAspectRatio := u.lockAspectRatio.getD p.lockAspectRatio }

/-- the list transformation of `PresetManager.updatePreset` (line 51). -/
def updatePreset (presets : List SizePreset) (id : String) (u : PresetUpdate) :
    List SizePreset :=
  presets.map fun p => if p.id = id then mergePreset p u else p

/-- the export format of the app (`'jpg' | 'png'`). -/
inductive Format where
  | jpg
  | png
deriving DecidableEq

/-- the outcome of `BatchProcessor.generateImage` for one preset: a blob,
a null blob (e.g. no 2d context), or a thrown exception. -/
inductive GenerateResult where
  | blob (data : String)
  | noBlob
  | failure
deriving DecidableEq

/-- one file placed in the zip folder by `BatchProcessor.process`. -/
structure ZipEntry where
  filename : String
  data : String
deriving DecidableEq

/-- character-list worker for the regex replace `label.replace(/\s+/g, '_')`:
each maximal run of whitespace becomes a single underscore. -/
def collapseWsAux : Bool → List Char → List Char
  | _, [] => []
  | prevWs, c :: rest =>
      if c.isWhitespace then
        if prevWs then collapseWsAux true rest
        else '_' :: collapseWsAux true rest
      else c :: collapseWsAux false rest

/-- the regex replace `label.replace(/\s+/g, '_')` on a string. -/
def replaceWsRuns (s : String) : String :=
  ⟨collapseWsAux false s.data⟩

/-- the filename built in `BatchProcessor.process` (line 20). -/
def presetFilename (preset : SizePreset) (format : Format) : String :=
  replaceWsRuns preset.label ++ "_" ++ toString preset.width ++ "x" ++
    toString preset.height ++ "." ++ (match format with | Format.jpg => "jpg" | Format.png => "png")

/-- `BatchProcessor.process` over a list of presets, with the per-preset
raster generation abstracted as `generate`.  Each preset's async closure
awaits `generateImage` and, when a blob is produced, adds a file to the zip
folder; a `null` blob adds nothing.  If any closure throws, `Promise.all`
rejects, so `zip.generateAsync`/`saveAs` never run and no archive is
produced — modelled as `none`.  Otherwise the archive holds exactly the
blob-producing presets' files, in list order. -/
def process (presets : List SizePreset) (format : Format)
    (generate : SizePreset → GenerateResult) : Option (List ZipEntry) :=
  if presets.any fun p => generate p == GenerateResult.failure then none
  else some (presets.filterMap fun p =>
    match generate p with
    | GenerateResult.blob d => some ⟨presetFilename p format, d⟩
    | _ => none)

/-- the slice of `UIController.appState` that `handleDownload` inspects. -/
structure AppState where
  originalImage : Option Image
  cropRect : Option CropRect
deriving DecidableEq

/-- the initial `appState` of `UIController` (lines 8-16). -/
def initialAppState : AppState := ⟨none, none⟩

/-- the default crop built by `CropEngine.setImage` (lines 28-36): a
centered square over 80% of the shorter image dimension. -/
def defaultCrop (img : Image) : CropRect :=
  let minDim := min img.width img.height
  let size := minDim * (8/10)
  ⟨(img.width - size) / 2, (img.height - size) / 2, size, size⟩

/-- the events that mutate the image/crop slice of `appState`:
`onImageLoaded` (which calls `CropEngine.setImage`, which fires the
`onCropChange` callback with the default crop) and a later `onCropChange`
from a crop mutation (`CropEngine` only fires it when it has an image). -/
inductive AppEvent where
  | imageLoaded (img : Image)
  | cropChanged (rect : CropRect)

/-- one app-state transition for the events above. -/
def appStep : AppState → AppEvent → AppState
  | _, AppEvent.imageLoaded img => ⟨some img, some (defaultCrop img)⟩
  | s, AppEvent.cropChanged rect =>
      if s.originalImage.isSome then ⟨s.originalImage, some rect⟩ else s

/-- app states reachable from the initial state through the events. -/
inductive Reachable : AppState → Prop where
  | init : Reachable initialAppState
  | next (s : AppState) (e : AppEvent) : Reachable s → Reachable (appStep s e)

/-- what `UIController.handleDownload` does: refuse with the alert
`Please upload an image first.` (batch processor never invoked), or invoke
`batchProcessor.process` with the state's image and crop. -/
inductive DownloadAction where
  | refused
  | invoked (image : Image) (crop : CropRect)
deriving DecidableEq

/-- the guard of `UIController.handleDownload` (lines 286-308). -/
def handleDownload (s : AppState) : DownloadAction :=
  match s.originalImage, s.cropRect with
  | some img, some crop => DownloadAction.invoked img crop
  | _, _ => DownloadAction.refused

/-- helper: the base scale is positive for an image with positive dimensions. -/
lemma getBaseScale_pos (canvas : Canvas) (image : Image)
    (hW : 0 < image.width) (hH : 0 < image.height) :
    0 < getBaseScale canvas image := by
  simp only [getBaseScale]
  split_ifs with h
  · norm_num
  · push_neg at h
    exact lt_min (div_pos h.1 hW) (div_pos h.2 hH)

/-- C6: with a positive base scale and a zoom in `[0.1, 10]` (so a nonzero
total scale), `canvasToImage` is an exact left inverse of `imageToCanvas`
on every image-space point. -/
theorem camera_round_trip (canvas : Canvas) (image : Image) (view : View) (p : Point)
    (hbs : 0 < getBaseScale canvas image)
    (hz1 : 1/10 ≤ view.zoom) (hz2 : view.zoom ≤ 10) :
    canvasToImage canvas image view (imageToCanvas canvas image view p) = p := by
  have hz : 0 < view.zoom := lt_of_lt_of_le (by norm_num) hz1
  have hs : getBaseScale canvas image * view.zoom ≠ 0 := (mul_pos hbs hz).ne'
  simp only [canvasToImage, imageToCanvas]
  ext
  · field_simp
    ring
  · field_simp
    ring

/-- witness for `camera_round_trip` at a concrete camera state. -/
theorem camera_round_trip_witness :
    canvasToImage ⟨880, 880⟩ ⟨1000, 1000⟩ ⟨1, 0, 0⟩
      (imageToCanvas ⟨880, 880⟩ ⟨1000, 1000⟩ ⟨1, 0, 0⟩ ⟨3, 7⟩) = ⟨3, 7⟩ :=
  camera_round_trip ⟨880, 880⟩ ⟨1000, 1000⟩ ⟨1, 0, 0⟩ ⟨3, 7⟩
    (by norm_num [getBaseScale]) (by norm_num) (by norm_num)

/-- C4: for every wheel event on an image with positive dimensions and a
prior zoom in `[0.1, 10]`, the zoom after `handleWheel` is again in
`[0.1, 10]`, and the image-space point that was under the pointer maps back
(through `imageToCanvas` with the new view) to the pointer position. -/
theorem handleWheel_bounds_and_anchor (canvas : Canvas) (image : Image) (view : View)
    (deltaY : ℚ) (mouse : Point)
    (hW : 0 < image.width) (hH : 0 < image.height)
    (hz1 : 1/10 ≤ view.zoom) (hz2 : view.zoom ≤ 10) :
    (1/10 ≤ (handleWheel canvas image view deltaY mouse).zoom ∧
      (handleWheel canvas image view deltaY mouse).zoom ≤ 10) ∧
    imageToCanvas canvas image (handleWheel canvas image view deltaY mouse)
      (canvasToImage canvas image view mouse) = mouse := by
  refine ⟨⟨?_, ?_⟩, ?_⟩
  · simp only [handleWheel]
    exact le_max_left _ _
  · simp only [handleWheel]
    exact max_le (by norm_num) (min_le_left _ _)
  · simp only [handleWheel, imageToCanvas]
    ext
    · ring
    · ring

/-- witness for `handleWheel_bounds_and_anchor` at a concrete wheel event. -/
theorem handleWheel_bounds_and_anchor_witness :
    (1/10 ≤ (handleWheel ⟨880, 880⟩ ⟨1000, 1000⟩ ⟨1, 0, 0⟩ 1 ⟨500, 300⟩).zoom ∧
      (handleWheel ⟨880, 880⟩ ⟨1000, 1000⟩ ⟨1, 0, 0⟩ 1 ⟨500, 300⟩).zoom ≤ 10) ∧
    imageToCanvas ⟨880, 880⟩ ⟨1000, 1000⟩
      (handleWheel ⟨880, 880⟩ ⟨1000, 1000⟩ ⟨1, 0, 0⟩ 1 ⟨500, 300⟩)
      (canvasToImage ⟨880, 880⟩ ⟨1000, 1000⟩ ⟨1, 0, 0⟩ ⟨500, 300⟩) = ⟨500, 300⟩ :=
  handleWheel_bounds_and_anchor ⟨880, 880⟩ ⟨1000, 1000⟩ ⟨1, 0, 0⟩ 1 ⟨500, 300⟩
    (by norm_num) (by norm_num) (by norm_num) (by norm_num)

/-- C9: when the clamped new zoom computed by `handleWheel` equals the
current zoom (a wheel gesture at the zoom limit), the whole camera state —
zoom, panX and panY — is left exactly unchanged. -/
theorem handleWheel_noop_at_zoom_limit (canvas : Canvas) (image : Image) (view : View)
    (deltaY : ℚ) (mouse : Point)
    (hW : 0 < image.width) (hH : 0 < image.height)
    (h : max (1/10) (min 10 (view.zoom *
        (1 + (if deltaY > 0 then -zoomIntensity else zoomIntensity)))) = view.zoom) :
    handleWheel canvas image view deltaY mouse = view := by
  have hz : 0 < view.zoom := by
    rw [← h]
    exact lt_of_lt_of_le (by norm_num) (le_max_left _ _)
  have hs : getBaseScale canvas image * view.zoom ≠ 0 :=
    (mul_pos (getBaseScale_pos canvas image hW hH) hz).ne'
  simp only [handleWheel, canvasToImage]
  rw [h]
  ext
  · rfl
  · field_simp
    ring
  · field_simp
    ring

/-- witness for `handleWheel_noop_at_zoom_limit`: zooming in at the upper
zoom bound 10 is a no-op on the view. -/
theorem handleWheel_noop_at_zoom_limit_witness :
    handleWheel ⟨880, 880⟩ ⟨1000, 1000⟩ ⟨10, 5, -3⟩ (-1) ⟨123, 456⟩ = ⟨10, 5, -3⟩ :=
  handleWheel_noop_at_zoom_limit ⟨880, 880⟩ ⟨1000, 1000⟩ ⟨10, 5, -3⟩ (-1) ⟨123, 456⟩
    (by norm_num) (by norm_num) (by norm_num [zoomIntensity, min_def, max_def])

/-- C1 (counterexample): starting from a crop satisfying all §3 invariants,
a `resize-br` pointer move whose pointer maps to image point `(1100, 1100)`
on a 1000×1000 image produces a crop with `x + width = 1100 > 1000`:
the resizing branches of `handleMouseMove` do not clamp to image bounds. -/
theorem resize_violates_bounds_counterexample :
    cropInvariant ⟨1000, 1000⟩ ⟨100, 100, 800, 800⟩ ∧
    ¬ cropInvariant ⟨1000, 1000⟩
        (handleMouseMove ⟨880, 880⟩ ⟨1000, 1000⟩ DragMode.resizeBR
          ⟨⟨1, 0, 0⟩, ⟨100, 100, 800, 800⟩, ⟨0, 0⟩⟩ ⟨920, 920⟩).cropRect := by
  constructor
  · norm_num [cropInvariant]
  · norm_num [cropInvariant, handleMouseMove, canvasToImage, getBaseScale,
      min_def, max_def]

/-- C1 (amended): starting from a crop satisfying the §3 invariants, a
pointer move in the `moving` state preserves all of them, while a pointer
move in any of the four resizing states preserves the `MIN_SIZE` invariants
`width ≥ 10` and `height ≥ 10` (its result can violate the image-bounds
invariants, which the resize branches never clamp). -/
theorem handleMouseMove_invariants (canvas : Canvas) (image : Image)
    (st : MoveState) (mouse : Point)
    (hinv : cropInvariant image st.cropRect) :
    cropInvariant image (handleMouseMove canvas image DragMode.move st mouse).cropRect ∧
    ∀ mode : DragMode,
      mode = DragMode.resizeTL ∨ mode = DragMode.resizeTR ∨
        mode = DragMode.resizeBL ∨ mode = DragMode.resizeBR →
      10 ≤ (handleMouseMove canvas image mode st mouse).cropRect.width ∧
      10 ≤ (handleMouseMove canvas image mode st mouse).cropRect.height := by
  obtain ⟨hx, hy, hxw, hyh, hw, hh⟩ := hinv
  constructor
  · simp only [handleMouseMove, cropInvariant]
    refine ⟨le_max_left _ _, le_max_left _ _, ?_, ?_, hw, hh⟩
    · refine le_trans (add_le_add_right (max_le ?_ (min_le_left _ _)) _) ?_ <;> linarith
    · refine le_trans (add_le_add_right (max_le ?_ (min_le_left _ _)) _) ?_ <;> linarith
  · intro mode hmode
    rcases hmode with h | h | h | h
    · subst h
      simp only [handleMouseMove]
      constructor
      · linarith [min_le_left (st.cropRect.x + st.cropRect.width - 10)
          (canvasToImage canvas image st.view mouse).x]
      · linarith [min_le_left (st.cropRect.y + st.cropRect.height - 10)
          (canvasToImage canvas image st.view mouse).y]
    · subst h
      simp only [handleMouseMove]
      exact ⟨le_max_left _ _, by
        linarith [min_le_left (st.cropRect.y + st.cropRect.height - 10)
          (canvasToImage canvas image st.view mouse).y]⟩
    · subst h
      simp only [handleMouseMove]
      exact ⟨by
        linarith [min_le_left (st.cropRect.x + st.cropRect.width - 10)
          (canvasToImage canvas image st.view mouse).x], le_max_left _ _⟩
    · subst h
      simp only [handleMouseMove]
      exact ⟨le_max_left _ _, le_max_left _ _⟩

/-- witness for `handleMouseMove_invariants` at a concrete state. -/
theorem handleMouseMove_invariants_witness :
    cropInvariant ⟨1000, 1000⟩
      (handleMouseMove ⟨880, 880⟩ ⟨1000, 1000⟩ DragMode.move
        ⟨⟨1, 0, 0⟩, ⟨100, 100, 800, 800⟩, ⟨0, 0⟩⟩ ⟨920, 920⟩).cropRect ∧
    ∀ mode : DragMode,
      mode = DragMode.resizeTL ∨ mode = DragMode.resizeTR ∨
        mode = DragMode.resizeBL ∨ mode = DragMode.resizeBR →
      10 ≤ (handleMouseMove ⟨880, 880⟩ ⟨1000, 1000⟩ mode
        ⟨⟨1, 0, 0⟩, ⟨100, 100, 800, 800⟩, ⟨0, 0⟩⟩ ⟨920, 920⟩).cropRect.width ∧
      10 ≤ (handleMouseMove ⟨880, 880⟩ ⟨1000, 1000⟩ mode
        ⟨⟨1, 0, 0⟩, ⟨100, 100, 800, 800⟩, ⟨0, 0⟩⟩ ⟨920, 920⟩).cropRect.height :=
  handleMouseMove_invariants ⟨880, 880⟩ ⟨1000, 1000⟩
    ⟨⟨1, 0, 0⟩, ⟨100, 100, 800, 800⟩, ⟨0, 0⟩⟩ ⟨920, 920⟩ (by norm_num [cropInvariant])

/-- C5: each resizing pointer move leaves its fixed opposite corner exactly
in place: `br` keeps the top-left corner, `tl` the bottom-right, `tr` the
bottom-left, `bl` the top-right. -/
theorem resize_fixed_corner (canvas : Canvas) (image : Image) (st : MoveState) (mouse : Point)
    (hw : 10 ≤ st.cropRect.width) (hh : 10 ≤ st.cropRect.height) :
    ((handleMouseMove canvas image DragMode.resizeBR st mouse).cropRect.x = st.cropRect.x ∧
      (handleMouseMove canvas image DragMode.resizeBR st mouse).cropRect.y = st.cropRect.y) ∧
    ((handleMouseMove canvas image DragMode.resizeTL st mouse).cropRect.x +
        (handleMouseMove canvas image DragMode.resizeTL st mouse).cropRect.width =
      st.cropRect.x + st.cropRect.width ∧
      (handleMouseMove canvas image DragMode.resizeTL st mouse).cropRect.y +
        (handleMouseMove canvas image DragMode.resizeTL st mouse).cropRect.height =
      st.cropRect.y + st.cropRect.height) ∧
    ((handleMouseMove canvas image DragMode.resizeTR st mouse).cropRect.x = st.cropRect.x ∧
      (handleMouseMove canvas image DragMode.resizeTR st mouse).cropRect.y +
        (handleMouseMove canvas image DragMode.resizeTR st mouse).cropRect.height =
      st.cropRect.y + st.cropRect.height) ∧
    ((handleMouseMove canvas image DragMode.resizeBL st mouse).cropRect.x +
        (handleMouseMove canvas image DragMode.resizeBL st mouse).cropRect.width =
      st.cropRect.x + st.cropRect.width ∧
      (handleMouseMove canvas image DragMode.resizeBL st mouse).cropRect.y = st.cropRect.y) := by
  simp only [handleMouseMove]
  and_intros <;> first | trivial | ring

/-- witness for `resize_fixed_corner` at a concrete state. -/
theorem resize_fixed_corner_witness :
    ((handleMouseMove ⟨880, 880⟩ ⟨1000, 1000⟩ DragMode.resizeBR
        ⟨⟨1, 0, 0⟩, ⟨100, 100, 800, 800⟩, ⟨0, 0⟩⟩ ⟨920, 920⟩).cropRect.x = (100 : ℚ) ∧
      (handleMouseMove ⟨880, 880⟩ ⟨1000, 1000⟩ DragMode.resizeBR
        ⟨⟨1, 0, 0⟩, ⟨100, 100, 800, 800⟩, ⟨0, 0⟩⟩ ⟨920, 920⟩).cropRect.y = (100 : ℚ)) ∧
    ((handleMouseMove ⟨880, 880⟩ ⟨1000, 1000⟩ DragMode.resizeTL
        ⟨⟨1, 0, 0⟩, ⟨100, 100, 800, 800⟩, ⟨0, 0⟩⟩ ⟨920, 920⟩).cropRect.x +
        (handleMouseMove ⟨880, 880⟩ ⟨1000, 1000⟩ DragMode.resizeTL
        ⟨⟨1, 0, 0⟩, ⟨100, 100, 800, 800⟩, ⟨0, 0⟩⟩ ⟨920, 920⟩).cropRect.width =
      (100 : ℚ) + 800 ∧
      (handleMouseMove ⟨880, 880⟩ ⟨1000, 1000⟩ DragMode.resizeTL
        ⟨⟨1, 0, 0⟩, ⟨100, 100, 800, 800⟩, ⟨0, 0⟩⟩ ⟨920, 920⟩).cropRect.y +
        (handleMouseMove ⟨880, 880⟩ ⟨1000, 1000⟩ DragMode.resizeTL
        ⟨⟨1, 0, 0⟩, ⟨100, 100, 800, 800⟩, ⟨0, 0⟩⟩ ⟨920, 920⟩).cropRect.height =
      (100 : ℚ) + 800) ∧
    ((handleMouseMove ⟨880, 880⟩ ⟨1000, 1000⟩ DragMode.resizeTR
        ⟨⟨1, 0, 0⟩, ⟨100, 100, 800, 800⟩, ⟨0, 0⟩⟩ ⟨920, 920⟩).cropRect.x = (100 : ℚ) ∧
      (handleMouseMove ⟨880, 880⟩ ⟨1000, 1000⟩ DragMode.resizeTR
        ⟨⟨1, 0, 0⟩, ⟨100, 100, 800, 800⟩, ⟨0, 0⟩⟩ ⟨920, 920⟩).cropRect.y +
        (handleMouseMove ⟨880, 880⟩ ⟨1000, 1000⟩ DragMode.resizeTR
        ⟨⟨1, 0, 0⟩, ⟨100, 100, 800, 800⟩, ⟨0, 0⟩⟩ ⟨920, 920⟩).cropRect.height =
      (100 : ℚ) + 800) ∧
    ((handleMouseMove ⟨880, 880⟩ ⟨1000, 1000⟩ DragMode.resizeBL
        ⟨⟨1, 0, 0⟩, ⟨100, 100, 800, 800⟩, ⟨0, 0⟩⟩ ⟨920, 920⟩).cropRect.x +
        (handleMouseMove ⟨880, 880⟩ ⟨1000, 1000⟩ DragMode.resizeBL
        ⟨⟨1, 0, 0⟩, ⟨100, 100, 800, 800⟩, ⟨0, 0⟩⟩ ⟨920, 920⟩).cropRect.width =
      (100 : ℚ) + 800 ∧
      (handleMouseMove ⟨880, 880⟩ ⟨1000, 1000⟩ DragMode.resizeBL
        ⟨⟨1, 0, 0⟩, ⟨100, 100, 800, 800⟩, ⟨0, 0⟩⟩ ⟨920, 920⟩).cropRect.y = (100 : ℚ)) :=
  resize_fixed_corner ⟨880, 880⟩ ⟨1000, 1000⟩
    ⟨⟨1, 0, 0⟩, ⟨100, 100, 800, 800⟩, ⟨0, 0⟩⟩ ⟨920, 920⟩ (by norm_num) (by norm_num)

/-- helper: the expansion step yields a positive height and the exact
target ratio (`sourceW = sourceH · targetRatio`). -/
lemma expandedSource_spec (userCrop : CropRect) (rt : ℚ)
    (hcw : 0 < userCrop.width) (hch : 0 < userCrop.height) (hrt : 0 < rt) :
    0 < (expandedSource userCrop rt).2 ∧
      (expandedSource userCrop rt).1 = (expandedSource userCrop rt).2 * rt := by
  unfold expandedSource
  split_ifs with h
  · exact ⟨hch, rfl⟩
  · exact ⟨div_pos hcw hrt, (div_mul_cancel₀ userCrop.width (ne_of_gt hrt)).symm⟩

/-- helper: the first shrink check preserves positivity and the ratio and
bounds the width by the image width. -/
lemma boundWidth_spec (W rt : ℚ) (s : ℚ × ℚ) (hW : 0 < W) (hrt : 0 < rt)
    (h2 : 0 < s.2) (h1 : s.1 = s.2 * rt) :
    0 < (boundWidth W rt s).2 ∧
      (boundWidth W rt s).1 = (boundWidth W rt s).2 * rt ∧
      (boundWidth W rt s).1 ≤ W := by
  unfold boundWidth
  split_ifs with h
  · exact ⟨div_pos hW hrt, (div_mul_cancel₀ W (ne_of_gt hrt)).symm, le_refl W⟩
  · exact ⟨h2, h1, le_of_not_lt h⟩

/-- helper: the second shrink check preserves positivity, the ratio and the
width bound, and bounds the height by the image height. -/
lemma boundHeight_spec (W H rt : ℚ) (s : ℚ × ℚ) (hH : 0 < H) (hrt : 0 < rt)
    (h2 : 0 < s.2) (h1 : s.1 = s.2 * rt) (hsW : s.1 ≤ W) :
    0 < (boundHeight H rt s).2 ∧
      (boundHeight H rt s).1 = (boundHeight H rt s).2 * rt ∧
      (boundHeight H rt s).1 ≤ W ∧ (boundHeight H rt s).2 ≤ H := by
  unfold boundHeight
  split_ifs with h
  · refine ⟨hH, rfl, ?_, le_refl H⟩
    have hHs : H * rt ≤ s.2 * rt :=
      mul_le_mul_of_nonneg_right (le_of_lt h) (le_of_lt hrt)
    calc H * rt ≤ s.2 * rt := hHs
      _ = s.1 := h1.symm
      _ ≤ W := hsW
  · exact ⟨h2, h1, hsW, le_of_not_lt h⟩

/-- helper: when the rectangle fits (`size ≤ extent`), the two sequential
clamps place it inside `[0, extent]`. -/
lemma shiftIntoBounds_spec (extent size pos : ℚ) (hle : size ≤ extent) :
    0 ≤ shiftIntoBounds extent size pos ∧
      shiftIntoBounds extent size pos + size ≤ extent := by
  unfold shiftIntoBounds
  split_ifs <;> constructor <;> linarith

/-- C2: for positive image dimensions, a positive user crop and a positive
target size, the source rectangle computed by `generateImage` lies fully
inside the image and its aspect ratio equals the target ratio exactly. -/
theorem generateImage_source_bounds_ratio (image : Image) (userCrop : CropRect)
    (presetW presetH : ℚ)
    (hW : 0 < image.width) (hH : 0 < image.height)
    (hcw : 0 < userCrop.width) (hch : 0 < userCrop.height)
    (hpw : 0 < presetW) (hph : 0 < presetH) :
    0 ≤ (generateImageSourceRect image userCrop presetW presetH).x ∧
    0 ≤ (generateImageSourceRect image userCrop presetW presetH).y ∧
    (generateImageSourceRect image userCrop presetW presetH).x +
        (generateImageSourceRect image userCrop presetW presetH).w ≤ image.width ∧
    (generateImageSourceRect image userCrop presetW presetH).y +
        (generateImageSourceRect image userCrop presetW presetH).h ≤ image.height ∧
    0 < (generateImageSourceRect image userCrop presetW presetH).h ∧
    (generateImageSourceRect image userCrop presetW presetH).w /
        (generateImageSourceRect image userCrop presetW presetH).h =
      presetW / presetH := by
  have hrt : 0 < presetW / presetH := div_pos hpw hph
  have he := expandedSource_spec userCrop (presetW / presetH) hcw hch hrt
  have hbw := boundWidth_spec image.width (presetW / presetH) _ hW hrt he.1 he.2
  have hbh := boundHeight_spec image.width image.height (presetW / presetH) _
    hH hrt hbw.1 hbw.2.1 hbw.2.2
  have hx := shiftIntoBounds_spec image.width
    (boundHeight image.height (presetW / presetH)
      (boundWidth image.width (presetW / presetH)
        (expandedSource userCrop (presetW / presetH)))).1
    (userCrop.x + userCrop.width / 2 -
      (boundHeight image.height (presetW / presetH)
        (boundWidth image.width (presetW / presetH)
          (expandedSource userCrop (presetW / presetH)))).1 / 2)
    hbh.2.2.1
  have hy := shiftIntoBounds_spec image.height
    (boundHeight image.height (presetW / presetH)
      (boundWidth image.width (presetW / presetH)
        (expandedSource userCrop (presetW / presetH)))).2
    (userCrop.y + userCrop.height / 2 -
      (boundHeight image.height (presetW / presetH)
        (boundWidth image.width (presetW / presetH)
          (expandedSource userCrop (presetW / presetH)))).2 / 2)
    hbh.2.2.2
  simp only [generateImageSourceRect]
  refine ⟨hx.1, hy.1, hx.2, hy.2, hbh.1, ?_⟩
  rw [hbh.2.1]
  exact mul_div_cancel_left₀ _ (ne_of_gt hbh.1)

/-- witness for `generateImage_source_bounds_ratio` at the spec's §8
scenario input (image 2000×1000, centered 500×500 crop, target 1200×630). -/
theorem generateImage_source_bounds_ratio_witness :
    0 ≤ (generateImageSourceRect ⟨2000, 1000⟩ ⟨500, 250, 500, 500⟩ 1200 630).x ∧
    0 ≤ (generateImageSourceRect ⟨2000, 1000⟩ ⟨500, 250, 500, 500⟩ 1200 630).y ∧
    (generateImageSourceRect ⟨2000, 1000⟩ ⟨500, 250, 500, 500⟩ 1200 630).x +
        (generateImageSourceRect ⟨2000, 1000⟩ ⟨500, 250, 500, 500⟩ 1200 630).w ≤ 2000 ∧
    (generateImageSourceRect ⟨2000, 1000⟩ ⟨500, 250, 500, 500⟩ 1200 630).y +
        (generateImageSourceRect ⟨2000, 1000⟩ ⟨500, 250, 500, 500⟩ 1200 630).h ≤ 1000 ∧
    0 < (generateImageSourceRect ⟨2000, 1000⟩ ⟨500, 250, 500, 500⟩ 1200 630).h ∧
    (generateImageSourceRect ⟨2000, 1000⟩ ⟨500, 250, 500, 500⟩ 1200 630).w /
        (generateImageSourceRect ⟨2000, 1000⟩ ⟨500, 250, 500, 500⟩ 1200 630).h =
      1200 / 630 :=
  generateImage_source_bounds_ratio ⟨2000, 1000⟩ ⟨500, 250, 500, 500⟩ 1200 630
    (by norm_num) (by norm_num) (by norm_num) (by norm_num) (by norm_num) (by norm_num)

/-- C3 (counterexample): at the spec scenario input the code does not
produce the rectangle `(273.75, 250, 952.5, 500)` claimed by the spec —
the spec rounded `1200/630` to `1.905` before multiplying. -/
theorem reframer_scenario_counterexample :
    generateImageSourceRect ⟨2000, 1000⟩ ⟨500, 250, 500, 500⟩ 1200 630 ≠
      ⟨1095/4, 250, 1905/2, 500⟩ := by
  norm_num [generateImageSourceRect, expandedSource, boundWidth, boundHeight,
    shiftIntoBounds]

/-- C3 (amended): at the scenario input the code expands the width
(targetRatio `40/21 > 1`), holds `sourceH = 500`, takes
`sourceW = 500 · 40/21 = 20000/21 ≈ 952.38`, and centers on `(750, 500)`,
giving `x = 5750/21 ≈ 273.81`, `y = 250`. -/
theorem reframer_scenario_exact :
    generateImageSourceRect ⟨2000, 1000⟩ ⟨500, 250, 500, 500⟩ 1200 630 =
      ⟨5750/21, 250, 20000/21, 500⟩ := by
  norm_num [generateImageSourceRect, expandedSource, boundWidth, boundHeight,
    shiftIntoBounds]

/-- C7 (counterexample): with two presets where the first one's generation
throws and the second produces a blob, `process` yields no archive at all —
`Promise.all` rejects, so the successful preset's output is not packaged
and no failure entry is recorded anywhere. -/
theorem process_abort_counterexample :
    (fun p : SizePreset =>
        if p.id = "1" then GenerateResult.failure else GenerateResult.blob "ok")
      (⟨"2", 200, 100, "b", true⟩ : SizePreset) = GenerateResult.blob "ok" ∧
    process [⟨"1", 100, 100, "a", true⟩, ⟨"2", 200, 100, "b", true⟩] Format.jpg
      (fun p => if p.id = "1" then GenerateResult.failure else GenerateResult.blob "ok") =
      none := by
  constructor
  · rfl
  · rfl

/-- C7 (amended): when no preset's generation throws, the batch completes:
the archive contains exactly the outputs of the blob-producing presets
(null-blob presets are silently omitted — no failure entry is recorded);
a thrown generation instead aborts the whole export. -/
theorem process_collects_blob_outputs (presets : List SizePreset) (format : Format)
    (generate : SizePreset → GenerateResult)
    (h : ∀ p ∈ presets, generate p ≠ GenerateResult.failure) :
    ∃ entries : List ZipEntry,
      process presets format generate = some entries ∧
      (∀ p ∈ presets, ∀ d, generate p = GenerateResult.blob d →
        ZipEntry.mk (presetFilename p format) d ∈ entries) ∧
      (∀ e ∈ entries, ∃ p, p ∈ presets ∧ generate p = GenerateResult.blob e.data ∧
        e.filename = presetFilename p format) := by
  refine ⟨presets.filterMap fun p =>
    match generate p with
    | GenerateResult.blob d => some ⟨presetFilename p format, d⟩
    | _ => none, ?_, ?_, ?_⟩
  · unfold process
    have hcond : (presets.any fun p => generate p == GenerateResult.failure) = false := by
      rw [List.any_eq_false]
      intro p hp
      simpa using h p hp
    rw [hcond]
    rfl
  · intro p hp d hd
    exact List.mem_filterMap.mpr ⟨p, hp, by rw [hd]⟩
  · intro e he
    rcases List.mem_filterMap.mp he with ⟨p, hp, hpe⟩
    cases hg : generate p with
    | blob d =>
        rw [hg] at hpe
        obtain rfl := Option.some.inj hpe
        exact ⟨p, hp, hg, rfl⟩
    | noBlob =>
        rw [hg] at hpe
        cases hpe
    | failure =>
        rw [hg] at hpe
        cases hpe

/-- witness for `process_collects_blob_outputs`: one blob-producing preset
and one null-blob preset; the archive exists and contains the success. -/
theorem process_collects_blob_outputs_witness :
    ∃ entries : List ZipEntry,
      process [⟨"1", 100, 100, "a", true⟩, ⟨"2", 200, 100, "b c", true⟩] Format.png
        (fun p => if p.id = "1" then GenerateResult.blob "data1" else GenerateResult.noBlob) =
        some entries ∧
      (∀ p ∈ [(⟨"1", 100, 100, "a", true⟩ : SizePreset), ⟨"2", 200, 100, "b c", true⟩],
        ∀ d, (fun p : SizePreset =>
            if p.id = "1" then GenerateResult.blob "data1" else GenerateResult.noBlob) p =
            GenerateResult.blob d →
        ZipEntry.mk (presetFilename p Format.png) d ∈ entries) ∧
      (∀ e ∈ entries, ∃ p,
        p ∈ [(⟨"1", 100, 100, "a", true⟩ : SizePreset), ⟨"2", 200, 100, "b c", true⟩] ∧
        (fun p : SizePreset =>
            if p.id = "1" then GenerateResult.blob "data1" else GenerateResult.noBlob) p =
          GenerateResult.blob e.data ∧
        e.filename = presetFilename p Format.png) :=
  process_collects_blob_outputs
    [⟨"1", 100, 100, "a", true⟩, ⟨"2", 200, 100, "b c", true⟩] Format.png
    (fun p => if p.id = "1" then GenerateResult.blob "data1" else GenerateResult.noBlob)
    (by decide)

/-- helper invariant: in every reachable app state, a defined crop
rectangle implies a loaded image (`cropRect` is only ever set by
`CropEngine`, which requires an image, and loading an image sets both). -/
lemma reachable_crop_needs_image (s : AppState) (h : Reachable s) :
    s.cropRect.isSome = true → s.originalImage.isSome = true := by
  induction h with
  | init => simp [initialAppState]
  | next s e _ ih =>
      cases e with
      | imageLoaded img => simp [appStep]
      | cropChanged rect =>
          by_cases hs : s.originalImage.isSome = true
          · simp [appStep, hs]
          · simp only [appStep, hs, if_false]
            exact ih

/-- C8: in every reachable app state, `handleDownload` refuses exactly when
no crop rectangle is defined (the precondition alert path), and whenever it
does invoke the batch processor it passes the state's image and crop —
so a missing crop is the only refusal condition. -/
theorem handleDownload_refused_iff (s : AppState) (h : Reachable s) :
    (handleDownload s = DownloadAction.refused ↔ s.cropRect = none) ∧
    (∀ img crop, handleDownload s = DownloadAction.invoked img crop →
      s.originalImage = some img ∧ s.cropRect = some crop) := by
  have hinv := reachable_crop_needs_image s h
  rcases hs1 : s.originalImage with _ | img <;> rcases hs2 : s.cropRect with _ | crop
  · constructor
    · simp [handleDownload, hs1, hs2]
    · intro img crop heq
      simp [handleDownload, hs1, hs2] at heq
  · rw [hs1, hs2] at hinv
    simp at hinv
  · constructor
    · simp [handleDownload, hs1, hs2]
    · intro img crop heq
      simp [handleDownload, hs1, hs2] at heq
  · constructor
    · simp [handleDownload, hs1, hs2]
    · intro img' crop' heq
      simp only [handleDownload, hs1, hs2, DownloadAction.invoked.injEq] at heq
      rw [heq.1, heq.2]
      exact ⟨rfl, rfl⟩

/-- witness for `handleDownload_refused_iff` at the (reachable) initial
state, which has no crop and is refused. -/
theorem handleDownload_refused_iff_witness :
    (handleDownload initialAppState = DownloadAction.refused ↔
      initialAppState.cropRect = none) ∧
    (∀ img crop, handleDownload initialAppState = DownloadAction.invoked img crop →
      initialAppState.originalImage = some img ∧ initialAppState.cropRect = some crop) :=
  handleDownload_refused_iff initialAppState Reachable.init

/-- C10: `updatePreset` keeps the list length, rewrites every position
whose preset has the given id to the spread-merge of that preset with the
update, keeps every other position exactly, and leaves the whole list
unchanged when no preset has the id. -/
theorem updatePreset_spec (presets : List SizePreset) (id : String) (u : PresetUpdate) :
    (updatePreset presets id u).length = presets.length ∧
    (∀ i : ℕ, ∀ p, presets[i]? = some p →
      (p.id = id → (updatePreset presets id u)[i]? = some (mergePreset p u)) ∧
      (p.id ≠ id → (updatePreset presets id u)[i]? = some p)) ∧
    ((∀ p ∈ presets, p.id ≠ id) → updatePreset presets id u = presets) := by
  refine ⟨List.length_map _ _, ?_, ?_⟩
  · intro i p hp
    constructor
    · intro hid
      unfold updatePreset
      rw [List.getElem?_map, hp]
      simp [hid]
    · intro hid
      unfold updatePreset
      rw [List.getElem?_map, hp]
      simp [hid]
  · induction presets with
    | nil => intro _; rfl
    | cons p ps ih =>
        intro hnone
        unfold updatePreset at ih ⊢
        rw [List.map_cons, if_neg (hnone p (List.mem_cons_self p ps)),
          ih fun q hq => hnone q (List.mem_cons_of_mem p hq)]

/-- witness for `updatePreset_spec` at a concrete two-preset list. -/
theorem updatePreset_spec_witness :
    (updatePreset [⟨"1", 100, 100, "a", true⟩, ⟨"2", 200, 100, "b", false⟩] "2"
        ⟨none, some 640, none, none, none⟩).length =
      ([(⟨"1", 100, 100, "a", true⟩ : SizePreset), ⟨"2", 200, 100, "b", false⟩]).length ∧
    (∀ i : ℕ, ∀ p,
      ([(⟨"1", 100, 100, "a", true⟩ : SizePreset), ⟨"2", 200, 100, "b", false⟩])[i]? =
        some p →
      (p.id = "2" →
        (updatePreset [⟨"1", 100, 100, "a", true⟩, ⟨"2", 200, 100, "b", false⟩] "2"
          ⟨none, some 640, none, none, none⟩)[i]? =
          some (mergePreset p ⟨none, some 640, none, none, none⟩)) ∧
      (p.id ≠ "2" →
        (updatePreset [⟨"1", 100, 100, "a", true⟩, ⟨"2", 200, 100, "b", false⟩] "2"
          ⟨none, some 640, none, none, none⟩)[i]? = some p)) ∧
    ((∀ p ∈ [(⟨"1", 100, 100, "a", true⟩ : SizePreset), ⟨"2", 200, 100, "b", false⟩],
        p.id ≠ "2") →
      updatePreset [⟨"1", 100, 100, "a", true⟩, ⟨"2", 200, 100, "b", false⟩] "2"
        ⟨none, some 640, none, none, none⟩ =
        [⟨"1", 100, 100, "a", true⟩, ⟨"2", 200, 100, "b", false⟩]) :=
  updatePreset_spec [⟨"1", 100, 100, "a", true⟩, ⟨"2", 200, 100, "b", false⟩] "2"
    ⟨none, some 640, none, none, none⟩

end BatchResizer
